import Mathlib

/-!
# Verification of the sociology paper analyzer's matching and scoring engine

Shallow embedding of `src/sociology_paper_analyzer.py`.  Python strings are
modelled as Lean `String`/`List Char`; `str.lower()` is modelled with
`Char.toLower` (faithful for the ASCII inputs considered here); Python `re`
matching is modelled by dedicated scanners below whose semantics follow the
Python `re` module: `\b` is a word boundary (a position where exactly one of
the two neighbouring characters is a word character `[A-Za-z0-9_]`),
`re.findall` scans left to right collecting non-overlapping matches, and the
taxonomy keyword is passed through `re.escape`, i.e. it is matched as a
literal string.
-/

namespace SPA

/-- Python `\w` word character (ASCII fragment): letters, digits, underscore. -/
def isWordChar (c : Char) : Bool :=
  c.isAlpha || c.isDigit || c == '_'

/-- Wordness of an optional neighbouring character; the edge of the string
counts as a non-word position. -/
def wordOpt : Option Char → Bool
  | none => false
  | some c => isWordChar c

/-- Python whitespace `\s` (ASCII fragment), also used by `str.split()` and
`str.strip()`. -/
def isPySpace (c : Char) : Bool :=
  c == ' ' || c == '\t' || c == '\n' || c == '\r' || c == '\x0b' || c == '\x0c'

/-- Does the regex `\b<kw>\b` (with `kw` a literal, `re.escape`d keyword)
match at the current position of the text?  `prev` is the character just
before the position (`none` at the start of the string), `s` is the rest of
the text.  The leading `\b` demands a boundary between `prev` and the first
keyword character; the trailing `\b` demands a boundary between the last
keyword character and the first character after the match. -/
def wbMatchAt (k : Char) (ks : List Char) (prev : Option Char) (s : List Char) : Bool :=
  (k :: ks).isPrefixOf s
    && (wordOpt prev != isWordChar k)
    && (isWordChar (ks.getLastD k) != wordOpt ((s.drop (ks.length + 1)).head?))

/-- Left-to-right scan counting non-overlapping matches of `\b<kw>\b`, the
semantics of `len(re.findall(...))` in `detect_methodology`,
`identify_theories` and `extract_concepts` (lines 136, 152, 171 of the
source).  After a match the scan resumes right after the matched text.  The
`fuel` argument only makes the recursion structural: every step consumes at
least one character, so starting the scan with `fuel = s.length` (as
`pyCount` does) never exhausts it before the text ends. -/
def wbScanF (k : Char) (ks : List Char) : Nat → Option Char → List Char → Nat
  | 0, _, _ => 0
  | fuel + 1, prev, s =>
    match s with
    | [] => 0
    | c :: rest =>
      if wbMatchAt k ks prev (c :: rest) then
        1 + wbScanF k ks fuel (some (ks.getLastD k)) (rest.drop ks.length)
      else
        wbScanF k ks fuel (some c) rest

/-- The matcher used by all three keyword scorers:
`len(re.findall(r'\b' + re.escape(keyword) + r'\b', text.lower()))`.
The keyword is matched verbatim (the source never lowercases it); the text is
lowercased first, as in `detect_methodology`, `identify_theories` and
`extract_concepts`.  Keyword list entries are non-empty in the source; an
empty keyword yields 0 here. -/
def pyCount (kw : String) (text : String) : Nat :=
  match kw.toList with
  | [] => 0
  | k :: ks =>
    let s := text.toList.map Char.toLower
    wbScanF k ks s.length none s

/-- Sum of the matcher's counts over one taxonomy keyword list (the inner
loop of `detect_methodology`). -/
def scoreOf (kws : List String) (text : String) : Nat :=
  (kws.map (fun k => pyCount k text)).sum

/-- The `qualitative` keyword list of `self.methodologies`. -/
def qualitativeKeywords : List String :=
  ["ethnography", "ethnographic", "interview", "focus group",
   "case study", "participant observation", "grounded theory",
   "narrative analysis", "discourse analysis", "content analysis",
   "phenomenology", "phenomenological", "autoethnography",
   "life history", "oral history", "fieldwork", "field notes"]

/-- The `quantitative` keyword list of `self.methodologies`. -/
def quantitativeKeywords : List String :=
  ["survey", "questionnaire", "regression", "statistical analysis",
   "anova", "correlation", "sample size", "n =", "p <", "p-value",
   "significance", "t-test", "chi-square", "factor analysis",
   "logistic regression", "descriptive statistics", "inferential statistics",
   "random sample", "probability sample", "statistical significance"]

/-- The `mixed_methods` keyword list of `self.methodologies`. -/
def mixedKeywords : List String :=
  ["mixed method", "mixed-method", "triangulation",
   "sequential design", "concurrent design", "convergent design",
   "explanatory sequential", "exploratory sequential"]

/-- `detect_methodology`: the returned dict, in insertion order, mapping each
of the three fixed categories to its summed keyword count. -/
def detectMethodology (text : String) : List (String × Nat) :=
  [("qualitative", scoreOf qualitativeKeywords text),
   ("quantitative", scoreOf quantitativeKeywords text),
   ("mixed_methods", scoreOf mixedKeywords text)]

/-- Python `max` over the three `methodology.items()` with `key=lambda x: x[1]`:
a later item replaces the current maximum only when strictly greater, so the
first maximal item wins. -/
def pyMaxScores (a b c : String × Nat) : String × Nat :=
  let m1 := if b.2 > a.2 then b else a
  if c.2 > m1.2 then c else m1

/-- The primary-methodology selection in `analyze` (lines 269-281): when the
total mention count is positive, the first category with the maximal count is
reported (and printed only when its count is positive, which always holds
there); when the total is zero the analyzer reports no methodology
(`"No clear methodology indicators found."`), modelled as `none`. -/
def primaryMethodology (text : String) : Option String :=
  let q := scoreOf qualitativeKeywords text
  let qt := scoreOf quantitativeKeywords text
  let m := scoreOf mixedKeywords text
  if q + qt + m > 0 then
    let primary := pyMaxScores ("qualitative", q) ("quantitative", qt) ("mixed_methods", m)
    if primary.2 > 0 then some primary.1 else none
  else
    none

/-- The `self.theories` taxonomy: theory name, then its keyword list, in
source declaration order. -/
def theoriesList : List (String × List String) :=
  [("structural_functionalism",
    ["structural functionalism", "functionalism", "functional",
     "parsons", "merton", "durkheim", "social structure",
     "social system", "equilibrium", "manifest function", "latent function"]),
   ("conflict_theory",
    ["conflict theory", "marx", "marxist", "class conflict",
     "power dynamics", "inequality", "oppression", "hegemony",
     "exploitation", "domination", "class struggle"]),
   ("symbolic_interactionism",
    ["symbolic interaction", "interactionism", "goffman", "blumer",
     "mead", "dramaturgy", "impression management", "self concept",
     "looking glass self", "significant other", "generalized other"]),
   ("feminist_theory",
    ["feminist", "feminism", "patriarchy", "gender inequality",
     "intersectionality", "womens studies", "masculine", "feminine",
     "gender roles", "sex and gender", "gender stratification"]),
   ("critical_race_theory",
    ["critical race", "crt", "racial formation", "systemic racism",
     "structural racism", "racial inequality", "colorblind",
     "white privilege", "racialization"]),
   ("postmodernism",
    ["postmodern", "postmodernism", "foucault", "derrida",
     "deconstruction", "discourse", "power/knowledge",
     "grand narrative", "metanarrative", "fragmentation"]),
   ("rational_choice",
    ["rational choice", "rational actor", "cost-benefit",
     "utility maximization", "game theory", "exchange theory",
     "social exchange"]),
   ("social_constructionism",
    ["social construction", "socially constructed", "berger",
     "luckmann", "reality construction", "social reality"])]

/-- The flat `self.concepts` list, in source declaration order. -/
def conceptsList : List String :=
  ["social capital", "cultural capital", "habitus", "field",
   "stigma", "deviance", "anomie", "social solidarity",
   "mechanical solidarity", "organic solidarity",
   "gemeinschaft", "gesellschaft", "social mobility",
   "stratification", "socialization", "social control",
   "social institution", "norms", "values", "roles",
   "status", "achieved status", "ascribed status",
   "in-group", "out-group", "reference group",
   "primary group", "secondary group", "bureaucracy",
   "rationalization", "McDonaldization", "globalization",
   "urbanization", "modernization", "secularization",
   "social movement", "collective behavior", "social change"]

/-- First-occurrence deduplication.  `len(set(xs))` equals its length, and
the Python `Counter` over a list enumerates keys in this order. -/
def dedupFirst {α : Type} [DecidableEq α] (l : List α) : List α :=
  l.foldl (fun acc x => if x ∈ acc then acc else acc ++ [x]) []

/-- Stable insertion step for a descending sort by the `Nat` component: the
inserted element `x` (which precedes every element of `l` in the original
list) goes before the first element whose key is not larger than `x`'s, so
earlier elements win ties. -/
def insertDesc {α : Type} (x : α × Nat) : List (α × Nat) → List (α × Nat)
  | [] => [x]
  | y :: ys => if y.2 ≤ x.2 then x :: y :: ys else y :: insertDesc x ys

/-- Python `sorted(pairs, key=lambda x: x[1], reverse=True)`: a stable sort,
descending by the numeric component, ties kept in original order.  Modelled
by stable insertion sort, which produces the same output as any stable sort
with this key. -/
def sortDesc {α : Type} : List (α × Nat) → List (α × Nat)
  | [] => []
  | x :: xs => insertDesc x (sortDesc xs)

/-- The inner loop of `identify_theories` for a single theory: per-keyword
counts over the lowercased text. -/
def theoryCounts (kws : List String) (text : String) : List (String × Nat) :=
  kws.map (fun k => (k, pyCount k text))

/-- `identify_theories`: per theory, the summed keyword count and the list of
matched keywords; only theories with a positive count are retained, in
taxonomy declaration order (Python dict insertion order).  The matched-term
list goes through `list(set(...))` in the source, whose iteration order is
the interpreter's hash order: that order is modelled by the oracle `σt`
(a permutation of its input), fixed for a process. -/
def identifyTheories (σt : List String → List String) (text : String) :
    List (String × Nat × List String) :=
  (theoriesList.map (fun nk =>
    let counts := theoryCounts nk.2 text
    (nk.1, (counts.map (fun p => p.2)).sum,
     σt (dedupFirst ((counts.filter (fun p => decide (0 < p.2))).map (fun p => p.1))))))
    |>.filter (fun t => decide (0 < t.2.1))

/-- The dict built by the loop of `extract_concepts` before sorting: each
concept with its count, zero-count concepts omitted, in taxonomy order. -/
def conceptCounts (text : String) : List (String × Nat) :=
  (conceptsList.map (fun c => (c, pyCount c text))).filter (fun p => decide (0 < p.2))

/-- `extract_concepts`: the positive-count concepts sorted descending by
count with a stable sort (`sorted(..., key=lambda x: x[1], reverse=True)`). -/
def extractConcepts (text : String) : List (String × Nat) :=
  sortDesc (conceptCounts text)

/-- Regular-expression abstract syntax for the literal patterns of
`extract_citations` and `self.research_patterns`: single-character classes,
concatenation, prioritized alternation and greedy Kleene star (quantifiers
`+`, `?`, `{4}` are sugar below). -/
inductive RE : Type where
  | eps : RE
  | cls : (Char → Bool) → RE
  | cat : RE → RE → RE
  | alt : RE → RE → RE
  | star : RE → RE

/-- Structural size of a pattern, used to compute a sufficient fuel bound. -/
def RE.size : RE → Nat
  | .eps => 1
  | .cls _ => 1
  | .cat a b => a.size + b.size + 1
  | .alt a b => a.size + b.size + 1
  | .star a => a.size + 1

/-- Backtracking matcher in the Python `re` (leftmost, not POSIX-longest)
discipline: the returned list holds the possible rests of the input in
backtracking priority order, so its head is the remainder of the match
Python's engine picks.  Alternation tries the left branch first; the greedy
star tries one-or-more iterations before zero, and (like Python) stops
iterating when the body consumes nothing.  `fuel` bounds the call depth;
every level either descends the pattern structure or consumes input, so a
depth of `size * (length + 1)` can never be exceeded (callers pass more). -/
def reMatch : Nat → RE → List Char → List (List Char)
  | 0, _, _ => []
  | _ + 1, .eps, s => [s]
  | _ + 1, .cls _, [] => []
  | _ + 1, .cls p, c :: rest => if p c then [rest] else []
  | fuel + 1, .cat a b, s => (reMatch fuel a s).flatMap (fun s2 => reMatch fuel b s2)
  | fuel + 1, .alt a b, s => reMatch fuel a s ++ reMatch fuel b s
  | fuel + 1, .star a, s =>
      ((reMatch fuel a s).flatMap (fun s2 =>
        if s2.length < s.length then reMatch fuel (.star a) s2 else [])) ++ [s]

/-- Length of the match Python's engine reports at the current position, if
any (the head of the backtracking-ordered remainder list). -/
def reFirst (r : RE) (s : List Char) : Option Nat :=
  match reMatch ((r.size + 1) * (s.length + 1)) r s with
  | [] => none
  | rem :: _ => some (s.length - rem.length)

/-- The `re.findall` scan: try a match at each position from the left; on a
match, record the matched text and resume after it (one character further
for an empty match, which none of the embedded patterns can produce).
`fuel` again only makes the recursion structural; each step consumes at
least one character. -/
def scanRE : Nat → RE → List Char → List (List Char)
  | 0, _, _ => []
  | fuel + 1, r, s =>
    match s with
    | [] => (match reFirst r [] with | some _ => [[]] | none => [])
    | c :: rest =>
      match reFirst r (c :: rest) with
      | none => scanRE fuel r rest
      | some 0 => [] :: scanRE fuel r rest
      | some (L + 1) => ((c :: rest).take (L + 1)) :: scanRE fuel r ((c :: rest).drop (L + 1))

/-- All matches of a pattern in a text, in scan order (`re.findall`). -/
def reFindAll (r : RE) (s : List Char) : List (List Char) :=
  scanRE (s.length + 1) r s

/-- Literal character. -/
def reChar (c : Char) : RE := .cls (fun x => x == c)

/-- Literal character under `re.IGNORECASE` (ASCII folding). -/
def reCharCI (c : Char) : RE := .cls (fun x => x.toLower == c.toLower)

/-- Concatenation of a pattern sequence. -/
def reSeq (l : List RE) : RE := l.foldr .cat .eps

/-- Literal string. -/
def reLit (s : String) : RE := reSeq (s.toList.map reChar)

/-- Literal string under `re.IGNORECASE`. -/
def reLitCI (s : String) : RE := reSeq (s.toList.map reCharCI)

/-- Quantifier `+`. -/
def rePlus (r : RE) : RE := .cat r (.star r)

/-- Quantifier `?` (greedy: presence preferred). -/
def reOpt (r : RE) : RE := .alt r .eps

/-- Alternation `r|r1|r2|...`, left branch preferred. -/
def reAlts (r : RE) (rs : List RE) : RE := rs.foldl .alt r

/-- Class `\d`. -/
def reDigit : RE := .cls (fun c => c.isDigit)

/-- Class `[A-Z]`. -/
def reUpper : RE := .cls (fun c => 'A' ≤ c && c ≤ 'Z')

/-- Class `[a-z]`. -/
def reLowerC : RE := .cls (fun c => 'a' ≤ c && c ≤ 'z')

/-- Class `\s`. -/
def reWs : RE := .cls isPySpace

/-- Pattern `\d{4}`. -/
def reD4 : RE := reSeq [reDigit, reDigit, reDigit, reDigit]

/-- Citation pattern `\([A-Z][a-z]+(?:,?\s+(?:and|&)\s+[A-Z][a-z]+)*,?\s+\d{4}\)`. -/
def citeP1 : RE :=
  reSeq [reChar '(', reUpper, rePlus reLowerC,
         .star (reSeq [reOpt (reChar ','), rePlus reWs,
                       .alt (reLit "and") (reChar '&'),
                       rePlus reWs, reUpper, rePlus reLowerC]),
         reOpt (reChar ','), rePlus reWs, reD4, reChar ')']

/-- Citation pattern `\([A-Z][a-z]+\s+et\s+al\.,?\s+\d{4}\)`. -/
def citeP2 : RE :=
  reSeq [reChar '(', reUpper, rePlus reLowerC, rePlus reWs, reLit "et",
         rePlus reWs, reLit "al", reChar '.', reOpt (reChar ','),
         rePlus reWs, reD4, reChar ')']

/-- Citation pattern `[A-Z][a-z]+\s+\(\d{4}\)`. -/
def citeP3 : RE :=
  reSeq [reUpper, rePlus reLowerC, rePlus reWs, reChar '(', reD4, reChar ')']

/-- The pooled list of raw citation matches: `re.findall` is run for each of
the three patterns over the raw text and the results are concatenated
(lines 198-201). -/
def citationMatches (text : String) : List String :=
  [citeP1, citeP2, citeP3].flatMap (fun r => (reFindAll r text.toList).map (fun m => (⟨m⟩ : String)))

/-- The record returned by `extract_citations`. -/
structure CitationReport where
  total_citations : Nat
  unique_citations : Nat
  sample_citations : List String
deriving DecidableEq, Repr

/-- `extract_citations`: total pooled matches, distinct matches, and up to 10
sample strings drawn from `list(set(all_citations))`.  The iteration order of
the Python set is the oracle `σc` (a permutation of the distinct matches),
fixed for a process. -/
def extractCitations (σc : List String → List String) (text : String) : CitationReport :=
  let all := citationMatches text
  { total_citations := all.length
    unique_citations := (dedupFirst all).length
    sample_citations := (σc (dedupFirst all)).take 10 }

/-- Research pattern `(?:hypothesis|hypotheses|we hypothesize|hypothesized)`. -/
def patHypothesis : RE :=
  reAlts (reLitCI "hypothesis")
    [reLitCI "hypotheses", reLitCI "we hypothesize", reLitCI "hypothesized"]

/-- Research pattern
`(?:research question|RQ\d+|this study (?:asks|examines|investigates))`. -/
def patResearchQuestion : RE :=
  reAlts (reLitCI "research question")
    [reSeq [reLitCI "RQ", rePlus reDigit],
     reSeq [reLitCI "this study ",
            reAlts (reLitCI "asks") [reLitCI "examines", reLitCI "investigates"]]]

/-- Research pattern `(?:sample size|n\s*=\s*\d+|participants?\s*\(n\s*=\s*\d+\))`. -/
def patSample : RE :=
  reAlts (reLitCI "sample size")
    [reSeq [reCharCI 'n', .star reWs, reChar '=', .star reWs, rePlus reDigit],
     reSeq [reLitCI "participant", reOpt (reCharCI 's'), .star reWs, reChar '(',
            reCharCI 'n', .star reWs, reChar '=', .star reWs, rePlus reDigit, reChar ')']]

/-- Research pattern `(?:findings|results show|we found|discovered that|demonstrates? that)`. -/
def patFindings : RE :=
  reAlts (reLitCI "findings")
    [reLitCI "results show", reLitCI "we found", reLitCI "discovered that",
     reSeq [reLitCI "demonstrate", reOpt (reCharCI 's'), reLitCI " that"]]

/-- Research pattern `(?:limitation|caveat|shortcoming|weakness of this study)`. -/
def patLimitations : RE :=
  reAlts (reLitCI "limitation")
    [reLitCI "caveat", reLitCI "shortcoming", reLitCI "weakness of this study"]

/-- Research pattern `(?:future research|further investigation|future studies)`. -/
def patFutureResearch : RE :=
  reAlts (reLitCI "future research")
    [reLitCI "further investigation", reLitCI "future studies"]

/-- `self.research_patterns`, in source declaration order. -/
def researchPatterns : List (String × RE) :=
  [("hypothesis", patHypothesis), ("research_question", patResearchQuestion),
   ("sample", patSample), ("findings", patFindings),
   ("limitations", patLimitations), ("future_research", patFutureResearch)]

/-- `analyze_research_components`: number of `re.finditer` matches per
component pattern over the raw (not lowercased) text with `re.IGNORECASE`;
zero-count components are omitted. -/
def analyzeResearchComponents (text : String) : List (String × Nat) :=
  (researchPatterns.map (fun p => (p.1, (reFindAll p.2 text.toList).length))).filter
    (fun p => decide (0 < p.2))

/-- Maximal runs of characters satisfying `p`, left to right. -/
def runsF (p : Char → Bool) : Nat → List Char → List (List Char)
  | 0, _ => []
  | _ + 1, [] => []
  | fuel + 1, c :: rest =>
    if p c then (c :: rest.takeWhile p) :: runsF p fuel (rest.dropWhile p)
    else runsF p fuel rest

/-- Maximal runs of characters satisfying `p`; the fuel `s.length` is exact
since every step consumes at least one character. -/
def runs (p : Char → Bool) (s : List Char) : List (List Char) :=
  runsF p s.length s

/-- The stop-word set of `extract_keywords`, in source order. -/
def stopWords : List String :=
  ["the", "a", "an", "and", "or", "but", "in", "on", "at", "to", "for",
   "of", "with", "by", "from", "as", "is", "was", "are", "were", "been",
   "be", "have", "has", "had", "do", "does", "did", "will", "would",
   "could", "should", "may", "might", "can", "this", "that", "these",
   "those", "i", "you", "he", "she", "it", "we", "they", "what", "which",
   "who", "when", "where", "why", "how", "all", "each", "every", "both",
   "few", "more", "most", "other", "some", "such", "than", "too", "very"]

/-- The token stream of `extract_keywords`:
`re.findall(r'\b[a-z]{4,}\b', text.lower())`.  On the lowercased text a
match of that pattern is exactly a maximal run of word characters that
consists only of lowercase letters and has length at least 4: the
surrounding `\b` fail everywhere strictly inside a word-character run, and a
run containing a digit or underscore can never satisfy the trailing `\b`
after backtracking (the character after any shorter letter prefix is still a
word character). -/
def keywordTokens (text : String) : List String :=
  ((runs isWordChar (text.toList.map Char.toLower)).filter
    (fun r => decide (4 ≤ r.length) && r.all (fun c => 'a' ≤ c && c ≤ 'z'))).map
    (fun r => (⟨r⟩ : String))

/-- `extract_keywords(text, top_n)`: tokenize, drop stop words, count
occurrences (`Counter` keys in first-occurrence order), then
`most_common(top_n)` = the first `top_n` entries of the stable descending
sort by count. -/
def extractKeywords (text : String) (topN : Nat) : List (String × Nat) :=
  let ws := (keywordTokens text).filter (fun w => !(stopWords.contains w))
  (sortDesc ((dedupFirst ws).map (fun w => (w, ws.count w)))).take topN

/-- Core of `text.split('\n\n')`: the first block and the remaining blocks.
A separator is consumed greedily from the left, exactly two newlines at a
time, as Python `str.split` with an explicit separator does. -/
def splitParasCore : List Char → List Char × List (List Char)
  | [] => ([], [])
  | '\n' :: '\n' :: rest =>
    let r := splitParasCore rest
    ([], r.1 :: r.2)
  | c :: rest =>
    let r := splitParasCore rest
    (c :: r.1, r.2)

/-- `text.split('\n\n')`; always returns at least one block. -/
def splitParas (s : List Char) : List (List Char) :=
  (splitParasCore s).1 :: (splitParasCore s).2

/-- Sentence-ending punctuation of `re.split(r'[.!?]+', text)`. -/
def isSentEnd (c : Char) : Bool :=
  c == '.' || c == '!' || c == '?'

/-- Core of `re.split(r'[.!?]+', text)`: a run of sentence-ending
punctuation is a single split point.  The fuel `s.length` is exact. -/
def splitSentF : Nat → List Char → List Char × List (List Char)
  | 0, _ => ([], [])
  | _ + 1, [] => ([], [])
  | fuel + 1, c :: rest =>
    if isSentEnd c then
      let r := splitSentF fuel (rest.dropWhile isSentEnd)
      ([], r.1 :: r.2)
    else
      let r := splitSentF fuel rest
      (c :: r.1, r.2)

/-- `re.split(r'[.!?]+', text)`. -/
def splitSentences (s : List Char) : List (List Char) :=
  (splitSentF s.length s).1 :: (splitSentF s.length s).2

/-- Python `str.strip()`: remove leading and trailing whitespace. -/
def pyStrip (s : List Char) : List Char :=
  ((s.dropWhile isPySpace).reverse.dropWhile isPySpace).reverse

/-- The record returned by `generate_summary`. -/
structure Summary where
  word_count : Nat
  sentence_count : Nat
  avg_sentence_length : ℚ
  paragraph_count : Nat
deriving DecidableEq, Repr

/-- `len(text.split())`: the number of maximal non-whitespace runs. -/
def wordCount (text : String) : Nat :=
  (runs (fun c => !isPySpace c) text.toList).length

/-- The retained-sentence count: fragments of `re.split(r'[.!?]+', text)`
whose stripped length exceeds 20 characters. -/
def sentenceCount (text : String) : Nat :=
  (((splitSentences text.toList).map pyStrip).filter (fun s => decide (20 < s.length))).length

/-- `generate_summary`: whitespace-delimited word count, retained-sentence
count, average sentence length `word_count / max(sentence_count, 1)` (exact
rational, modelling the Python float division), and `len(text.split('\n\n'))`
paragraphs. -/
def generateSummary (text : String) : Summary :=
  { word_count := wordCount text
    sentence_count := sentenceCount text
    avg_sentence_length := (wordCount text : ℚ) / ((max (sentenceCount text) 1 : Nat) : ℚ)
    paragraph_count := (splitParas text.toList).length }

/-- The structured report returned by `analyze` (lines 338-348). -/
structure AnalysisResult where
  filepath : String
  timestamp : String
  summary : Summary
  methodology : List (String × Nat)
  theories : List (String × Nat × List String)
  concepts : List (String × Nat)
  components : List (String × Nat)
  citations : CitationReport
  keywords : List (String × Nat)
deriving DecidableEq, Repr

/-- `analyze`, given the already-read text (file I/O is out of scope).  The
`timestamp` string is whatever `datetime.now().isoformat()` produced; the
two set-iteration oracles `σt` (theory matched-term sets) and `σc` (citation
sample sets) are fixed per process.  Note that the structured result reuses
the same `keywords` list that the narrative section printed, which `analyze`
obtained from `extract_keywords(text, top_n=15)` (line 329). -/
def analyze (σt σc : List String → List String)
    (timestamp filepath text : String) : AnalysisResult :=
  { filepath := filepath
    timestamp := timestamp
    summary := generateSummary text
    methodology := detectMethodology text
    theories := identifyTheories σt text
    concepts := extractConcepts text
    components := analyzeResearchComponents text
    citations := extractCitations σc text
    keywords := extractKeywords text 15 }

/-- A document with sixteen distinct eligible keywords (each at least four
lowercase letters, none a stop word), used to separate top-15 from top-20. -/
def sixteenKeywordText : String :=
  "alpha bravo delta gamma hotel india juliet kilos limas mikes chars oscar papas quebec romeo sierra"

/-! ## Supporting lemmas -/

theorem foldl_dedup_mem {α : Type} [DecidableEq α] (l : List α) :
    ∀ (acc : List α) (x : α),
      x ∈ l.foldl (fun a y => if y ∈ a then a else a ++ [y]) acc → x ∈ acc ∨ x ∈ l := by
  induction l with
  | nil => intro acc x h; exact Or.inl h
  | cons y ys ih =>
    intro acc x h
    rw [List.foldl_cons] at h
    rcases ih _ x h with h' | h'
    · by_cases hy : y ∈ acc
      · rw [if_pos hy] at h'
        exact Or.inl h'
      · rw [if_neg hy] at h'
        rcases List.mem_append.mp h' with h'' | h''
        · exact Or.inl h''
        · simp only [List.mem_singleton] at h''
          subst h''
          exact Or.inr (List.mem_cons_self _ _)
    · exact Or.inr (List.mem_cons_of_mem _ h')

theorem dedupFirst_subset {α : Type} [DecidableEq α] (l : List α) :
    ∀ x ∈ dedupFirst l, x ∈ l := by
  intro x hx
  rcases foldl_dedup_mem l [] x hx with h | h
  · simp at h
  · exact h

theorem foldl_dedup_nodup {α : Type} [DecidableEq α] (l : List α) :
    ∀ acc : List α, acc.Nodup →
      (l.foldl (fun a y => if y ∈ a then a else a ++ [y]) acc).Nodup := by
  induction l with
  | nil => intro acc h; exact h
  | cons y ys ih =>
    intro acc hacc
    rw [List.foldl_cons]
    refine ih _ ?_
    by_cases hy : y ∈ acc
    · rw [if_pos hy]; exact hacc
    · rw [if_neg hy]
      simp [List.nodup_append, hacc, hy]

theorem dedupFirst_nodup {α : Type} [DecidableEq α] (l : List α) : (dedupFirst l).Nodup :=
  foldl_dedup_nodup l [] List.nodup_nil

theorem foldl_dedup_length {α : Type} [DecidableEq α] (l : List α) :
    ∀ acc : List α,
      (l.foldl (fun a y => if y ∈ a then a else a ++ [y]) acc).length ≤
        acc.length + l.length := by
  induction l with
  | nil => intro acc; simp
  | cons y ys ih =>
    intro acc
    rw [List.foldl_cons]
    have h1 : (if y ∈ acc then acc else acc ++ [y]).length ≤ acc.length + 1 := by
      by_cases hy : y ∈ acc <;> simp [hy]
    have h2 := ih (if y ∈ acc then acc else acc ++ [y])
    simp only [List.length_cons]
    omega

theorem dedupFirst_length_le {α : Type} [DecidableEq α] (l : List α) :
    (dedupFirst l).length ≤ l.length := by
  have := foldl_dedup_length l []
  simpa [dedupFirst] using this

theorem insertDesc_perm {α : Type} (x : α × Nat) (l : List (α × Nat)) :
    List.Perm (insertDesc x l) (x :: l) := by
  induction l with
  | nil => exact List.Perm.refl _
  | cons y ys ih =>
    by_cases h : y.2 ≤ x.2
    · simp only [insertDesc, if_pos h]
      exact List.Perm.refl _
    · simp only [insertDesc, if_neg h]
      exact (ih.cons y).trans (List.Perm.swap x y ys)

theorem sortDesc_perm {α : Type} (l : List (α × Nat)) : List.Perm (sortDesc l) l := by
  induction l with
  | nil => exact List.Perm.refl _
  | cons x xs ih => exact (insertDesc_perm x (sortDesc xs)).trans (ih.cons x)

theorem insertDesc_pairwise {α : Type} (x : α × Nat) (l : List (α × Nat))
    (h : l.Pairwise (fun a b => b.2 ≤ a.2)) :
    (insertDesc x l).Pairwise (fun a b => b.2 ≤ a.2) := by
  induction l with
  | nil => simp [insertDesc]
  | cons y ys ih =>
    rcases List.pairwise_cons.mp h with ⟨hy, hys⟩
    by_cases hc : y.2 ≤ x.2
    · simp only [insertDesc, if_pos hc]
      refine List.Pairwise.cons ?_ h
      intro z hz
      rcases List.mem_cons.mp hz with rfl | hz'
      · exact hc
      · exact le_trans (hy z hz') hc
    · simp only [insertDesc, if_neg hc]
      refine List.Pairwise.cons ?_ (ih hys)
      intro z hz
      have hz' := (insertDesc_perm x ys).mem_iff.mp hz
      rcases List.mem_cons.mp hz' with rfl | hz''
      · exact le_of_not_le hc
      · exact hy z hz''

theorem sortDesc_pairwise {α : Type} (l : List (α × Nat)) :
    (sortDesc l).Pairwise (fun a b => b.2 ≤ a.2) := by
  induction l with
  | nil => simp [sortDesc]
  | cons x xs ih => exact insertDesc_pairwise x (sortDesc xs) ih

theorem filter_insertDesc {α : Type} (x : α × Nat) (l : List (α × Nat)) (k : Nat) :
    (insertDesc x l).filter (fun p => p.2 == k) =
      if x.2 = k then x :: l.filter (fun p => p.2 == k)
      else l.filter (fun p => p.2 == k) := by
  induction l with
  | nil => by_cases h : x.2 = k <;> simp [insertDesc, h]
  | cons y ys ih =>
    by_cases hc : y.2 ≤ x.2
    · simp only [insertDesc, if_pos hc]
      by_cases hx : x.2 = k <;> by_cases hy : y.2 = k <;> simp [hx, hy]
    · simp only [insertDesc, if_neg hc]
      by_cases hx : x.2 = k
      · have hy : ¬ y.2 = k := by omega
        simp [hx, hy, ih]
      · by_cases hy : y.2 = k <;> simp [hx, hy, ih]

theorem filter_sortDesc {α : Type} (l : List (α × Nat)) (k : Nat) :
    (sortDesc l).filter (fun p => p.2 == k) = l.filter (fun p => p.2 == k) := by
  induction l with
  | nil => rfl
  | cons x xs ih =>
    show (insertDesc x (sortDesc xs)).filter _ = _
    rw [filter_insertDesc]
    by_cases hx : x.2 = k <;> simp [hx, ih]

theorem pyCount_lower_congr (K : String) {T T' : String}
    (h : T.toList.map Char.toLower = T'.toList.map Char.toLower) :
    pyCount K T = pyCount K T' := by
  unfold pyCount
  rw [h]

theorem scoreOf_lower_congr (kws : List String) {T T' : String}
    (h : T.toList.map Char.toLower = T'.toList.map Char.toLower) :
    scoreOf kws T = scoreOf kws T' := by
  unfold scoreOf
  congr 1
  exact List.map_congr_left (fun k _ => pyCount_lower_congr k h)

theorem detectMethodology_lower_congr {T T' : String}
    (h : T.toList.map Char.toLower = T'.toList.map Char.toLower) :
    detectMethodology T = detectMethodology T' := by
  unfold detectMethodology
  rw [scoreOf_lower_congr qualitativeKeywords h, scoreOf_lower_congr quantitativeKeywords h,
    scoreOf_lower_congr mixedKeywords h]

theorem theoryCounts_lower_congr (kws : List String) {T T' : String}
    (h : T.toList.map Char.toLower = T'.toList.map Char.toLower) :
    theoryCounts kws T = theoryCounts kws T' := by
  unfold theoryCounts
  exact List.map_congr_left (fun k _ => by rw [pyCount_lower_congr k h])

theorem identifyTheories_lower_congr (σt : List String → List String) {T T' : String}
    (h : T.toList.map Char.toLower = T'.toList.map Char.toLower) :
    identifyTheories σt T = identifyTheories σt T' := by
  unfold identifyTheories
  congr 1
  exact List.map_congr_left (fun nk _ => by rw [theoryCounts_lower_congr nk.2 h])

theorem conceptCounts_lower_congr {T T' : String}
    (h : T.toList.map Char.toLower = T'.toList.map Char.toLower) :
    conceptCounts T = conceptCounts T' := by
  unfold conceptCounts
  congr 1
  exact List.map_congr_left (fun c _ => by rw [pyCount_lower_congr c h])

theorem extractConcepts_lower_congr {T T' : String}
    (h : T.toList.map Char.toLower = T'.toList.map Char.toLower) :
    extractConcepts T = extractConcepts T' := by
  unfold extractConcepts
  rw [conceptCounts_lower_congr h]

example : pyCount "class" "classroom" = 0 := by decide
example : pyCount "class" "a class of students" = 1 := by decide
example : pyCount "n =" "n = 45 participants" = 0 := by decide
example : pyCount "n =" "n =45 participants" = 1 := by decide
example : pyCount "survey" "a survey; the Survey" = 2 := by decide
example : pyCount "Survey" "survey" = 0 := by decide
example : primaryMethodology "survey regression" = some "quantitative" := by decide
example : primaryMethodology "zzz" = none := by decide
example :
    extractConcepts "stigma and anomie and stigma" = [("stigma", 2), ("anomie", 1)] := by decide
example :
    identifyTheories id "Durkheim studied solidarity, durkheim again" =
      [("structural_functionalism", 2, ["durkheim"])] := by decide
example : dedupFirst [3, 1, 3, 2, 1] = [3, 1, 2] := by decide
example : citationMatches "(Durkheim, 1897)" = ["(Durkheim, 1897)"] := by decide
example : citationMatches "Weber (1905) wrote" = ["Weber (1905)"] := by decide
example : citationMatches "(Smith and Jones, 2020)" = ["(Smith and Jones, 2020)"] := by decide
example : citationMatches "(Smith et al., 2019)" = ["(Smith et al., 2019)"] := by decide
example : analyzeResearchComponents "We hypothesized that n = 45" =
    [("hypothesis", 1), ("sample", 1)] := by decide
example : analyzeResearchComponents "" = [] := by decide
example :
    (extractCitations id "(Durkheim, 1897) and (Durkheim, 1897)").total_citations = 2 := by decide
example :
    (extractCitations id "(Durkheim, 1897) and (Durkheim, 1897)").unique_citations = 1 := by decide
example : keywordTokens "The four-item scale; ab1cd scale" = ["four", "item", "scale", "scale"] :=
  by decide
example : extractKeywords "The scale of the scale item whenever" 20 =
    [("scale", 2), ("item", 1), ("whenever", 1)] := by decide
example : (generateSummary "").word_count = 0 := by decide
example : (generateSummary "").sentence_count = 0 := by decide
example : (generateSummary "").paragraph_count = 1 := by decide
example : (generateSummary "").avg_sentence_length = 0 := by
  show (wordCount "" : ℚ) / ((max (sentenceCount "") 1 : Nat) : ℚ) = 0
  rw [show wordCount "" = 0 from by decide]
  norm_num
example : (generateSummary "one two three.\n\nfour").word_count = 4 := by decide
example : (generateSummary "one two three.\n\nfour").paragraph_count = 2 := by decide
example :
    (generateSummary "this sentence is long enough to count. no").sentence_count = 1 := by decide
example :
    (generateSummary "four words here now. this sentence is long enough to be counted!").word_count
      = 12 := by decide
example : sortDesc [(("a" : String), 1), ("b", 2), ("c", 1), ("d", 2)] =
    [("b", 2), ("d", 2), ("a", 1), ("c", 1)] := by decide

/-! ## Claim theorems -/

/-- C1: the claim demands a strictly positive quantitative score for any
text containing "n = 45 participants" and "p < 0.05", but the code appends
`\b` after the escaped keyword, and after the non-word characters `=` and
`<` that `\b` only matches when a word character follows immediately; so on
the text "n = 45 participants and p < 0.05" none of the quantitative
keywords (in particular neither "n =" nor "p <") matches and the
quantitative score is 0, contradicting the spec's explicit example.  This
theorem evaluates the embedded code at the failing input. -/
theorem C1_quantScoreZeroOnSpecExample :
    scoreOf quantitativeKeywords "n = 45 participants and p < 0.05" = 0 ∧
    detectMethodology "n = 45 participants and p < 0.05" =
      [("qualitative", 0), ("quantitative", 0), ("mixed_methods", 0)] := by
  exact ⟨by decide, by decide⟩

/-- C2 counterexample: the occurrence count is not invariant under case
changes to the keyword.  The matcher lowercases only the text, so the
keyword "survey" counts 1 in "survey" while its re-cased form "Survey"
counts 0. -/
theorem C2_keywordCaseCounterexample :
    pyCount "survey" "survey" = 1 ∧ pyCount "Survey" "survey" = 0 := by
  exact ⟨by decide, by decide⟩

/-- C2 (amended): for every text and keyword the matcher count is
non-negative, and it is invariant under case changes to the text (the text
is lowercased before matching); consequently `detect_methodology`,
`identify_theories` and `extract_concepts` return the same results when the
input text is re-cased.  Invariance under case changes to the keyword does
not hold (see the counterexample). -/
theorem C2_countNonnegAndTextCaseInvariant (K T T' : String)
    (σt : List String → List String)
    (h : T.toList.map Char.toLower = T'.toList.map Char.toLower) :
    0 ≤ pyCount K T ∧
    pyCount K T = pyCount K T' ∧
    detectMethodology T = detectMethodology T' ∧
    identifyTheories σt T = identifyTheories σt T' ∧
    extractConcepts T = extractConcepts T' :=
  ⟨Nat.zero_le _, pyCount_lower_congr K h, detectMethodology_lower_congr h,
    identifyTheories_lower_congr σt h, extractConcepts_lower_congr h⟩

/-- C2 witness: the amended theorem applied at the concrete re-cased pair
"SuRvEy" / "survey" with keyword "survey". -/
theorem C2_countNonnegAndTextCaseInvariant_witness :
    0 ≤ pyCount "survey" "SuRvEy" ∧
    pyCount "survey" "SuRvEy" = pyCount "survey" "survey" ∧
    detectMethodology "SuRvEy" = detectMethodology "survey" ∧
    identifyTheories id "SuRvEy" = identifyTheories id "survey" ∧
    extractConcepts "SuRvEy" = extractConcepts "survey" :=
  C2_countNonnegAndTextCaseInvariant "survey" "SuRvEy" "survey" id (by decide)

/-- C3: when a category holds the strict maximum of the three methodology
scores, the primary methodology reported by `analyze` is that category, and
when the total across the three categories is 0 the analyzer reports no
methodology (`none`) rather than naming a winner. -/
theorem C3_primarySelection (text : String) :
    (scoreOf qualitativeKeywords text + scoreOf quantitativeKeywords text +
        scoreOf mixedKeywords text = 0 → primaryMethodology text = none) ∧
    (scoreOf qualitativeKeywords text > scoreOf quantitativeKeywords text ∧
        scoreOf qualitativeKeywords text > scoreOf mixedKeywords text →
      primaryMethodology text = some "qualitative") ∧
    (scoreOf quantitativeKeywords text > scoreOf qualitativeKeywords text ∧
        scoreOf quantitativeKeywords text > scoreOf mixedKeywords text →
      primaryMethodology text = some "quantitative") ∧
    (scoreOf mixedKeywords text > scoreOf qualitativeKeywords text ∧
        scoreOf mixedKeywords text > scoreOf quantitativeKeywords text →
      primaryMethodology text = some "mixed_methods") := by
  simp only [primaryMethodology, pyMaxScores]
  refine ⟨fun h => ?_, fun h => ?_, fun h => ?_, fun h => ?_⟩ <;>
    split_ifs <;> first | rfl | omega

/-- C3 witness: the theorem applied at two concrete inputs, one with a
strict quantitative maximum and one with no methodology mentions at all. -/
theorem C3_primarySelection_witness :
    primaryMethodology "zzz" = none ∧
    primaryMethodology "survey regression" = some "quantitative" :=
  ⟨(C3_primarySelection "zzz").1 (by decide),
   (C3_primarySelection "survey regression").2.2.1 (by decide)⟩

/-- C5: the matcher performs whole-word boundary matching: "class" is not
counted inside "classroom" but is counted once in "a class of students". -/
theorem C5_wholeWordBoundary :
    pyCount "class" "classroom" = 0 ∧ pyCount "class" "a class of students" = 1 := by
  exact ⟨by decide, by decide⟩

/-- C6: the full analysis is a pure function of the input text (and the
per-process set-iteration oracles), so two runs on identical text agree on
every field other than the timestamp, the `sample_citations` sequence
included. -/
theorem C6_analysisDeterministic (σt σc : List String → List String)
    (ts1 ts2 fp text : String) :
    (analyze σt σc ts1 fp text).summary = (analyze σt σc ts2 fp text).summary ∧
    (analyze σt σc ts1 fp text).methodology = (analyze σt σc ts2 fp text).methodology ∧
    (analyze σt σc ts1 fp text).theories = (analyze σt σc ts2 fp text).theories ∧
    (analyze σt σc ts1 fp text).concepts = (analyze σt σc ts2 fp text).concepts ∧
    (analyze σt σc ts1 fp text).components = (analyze σt σc ts2 fp text).components ∧
    (analyze σt σc ts1 fp text).citations = (analyze σt σc ts2 fp text).citations ∧
    (analyze σt σc ts1 fp text).keywords = (analyze σt σc ts2 fp text).keywords ∧
    (analyze σt σc ts1 fp text).filepath = (analyze σt σc ts2 fp text).filepath :=
  ⟨rfl, rfl, rfl, rfl, rfl, rfl, rfl, rfl⟩

/-- C6 witness: the theorem applied at a concrete text with two distinct
timestamps. -/
theorem C6_analysisDeterministic_witness :
    (analyze id id "t1" "p.txt" "survey").summary = (analyze id id "t2" "p.txt" "survey").summary ∧
    (analyze id id "t1" "p.txt" "survey").methodology =
      (analyze id id "t2" "p.txt" "survey").methodology ∧
    (analyze id id "t1" "p.txt" "survey").theories =
      (analyze id id "t2" "p.txt" "survey").theories ∧
    (analyze id id "t1" "p.txt" "survey").concepts =
      (analyze id id "t2" "p.txt" "survey").concepts ∧
    (analyze id id "t1" "p.txt" "survey").components =
      (analyze id id "t2" "p.txt" "survey").components ∧
    (analyze id id "t1" "p.txt" "survey").citations =
      (analyze id id "t2" "p.txt" "survey").citations ∧
    (analyze id id "t1" "p.txt" "survey").keywords =
      (analyze id id "t2" "p.txt" "survey").keywords ∧
    (analyze id id "t1" "p.txt" "survey").filepath =
      (analyze id id "t2" "p.txt" "survey").filepath :=
  C6_analysisDeterministic id id "t1" "t2" "p.txt" "survey"

/-- C7: for every text (and any set-iteration order σc, which permutes the
distinct matches), `extract_citations` satisfies: unique ≤ total, at most
`min 10 unique` samples, pairwise-distinct samples, and every sample occurs
in the pooled list of raw pattern matches. -/
theorem C7_citationInvariants (σc : List String → List String)
    (hσ : ∀ l : List String, List.Perm (σc l) l) (text : String) :
    (extractCitations σc text).unique_citations ≤ (extractCitations σc text).total_citations ∧
    (extractCitations σc text).sample_citations.length ≤
      min 10 (extractCitations σc text).unique_citations ∧
    (extractCitations σc text).sample_citations.Nodup ∧
    ∀ s ∈ (extractCitations σc text).sample_citations, s ∈ citationMatches text := by
  refine ⟨dedupFirst_length_le _, ?_, ?_, ?_⟩
  · show ((σc (dedupFirst (citationMatches text))).take 10).length ≤ _
    rw [List.length_take, (hσ _).length_eq]
    exact le_rfl
  · show ((σc (dedupFirst (citationMatches text))).take 10).Nodup
    exact ((hσ _).symm.nodup (dedupFirst_nodup _)).sublist (List.take_sublist _ _)
  · intro s hs
    have h1 : s ∈ σc (dedupFirst (citationMatches text)) :=
      (List.take_sublist _ _).subset hs
    exact dedupFirst_subset _ s ((hσ _).mem_iff.mp h1)

/-- C7 witness: the theorem applied with the identity set order at the
concrete text "(Durkheim, 1897)". -/
theorem C7_citationInvariants_witness :
    (extractCitations id "(Durkheim, 1897)").unique_citations ≤
      (extractCitations id "(Durkheim, 1897)").total_citations ∧
    (extractCitations id "(Durkheim, 1897)").sample_citations.length ≤
      min 10 (extractCitations id "(Durkheim, 1897)").unique_citations ∧
    (extractCitations id "(Durkheim, 1897)").sample_citations.Nodup ∧
    ∀ s ∈ (extractCitations id "(Durkheim, 1897)").sample_citations,
      s ∈ citationMatches "(Durkheim, 1897)" :=
  C7_citationInvariants id (fun l => List.Perm.refl l) "(Durkheim, 1897)"

/-- C8: `extract_concepts` returns exactly the positive-count concepts (a
permutation of the filtered taxonomy listing), in non-increasing order of
count, and the equal-count entries keep their original taxonomy declaration
order: for every count value `k`, the subsequence of count-`k` entries
equals the count-`k` part of the taxonomy-ordered listing (the stable-sort
property). -/
theorem C8_conceptRanking (text : String) :
    List.Perm (extractConcepts text) (conceptCounts text) ∧
    (extractConcepts text).Pairwise (fun a b => b.2 ≤ a.2) ∧
    (∀ p ∈ extractConcepts text, 0 < p.2 ∧ p.2 = pyCount p.1 text) ∧
    (∀ k, (extractConcepts text).filter (fun p => p.2 == k) =
      (conceptCounts text).filter (fun p => p.2 == k)) := by
  refine ⟨sortDesc_perm _, sortDesc_pairwise _, ?_, fun k => filter_sortDesc _ k⟩
  intro p hp
  have hp' : p ∈ conceptCounts text := (sortDesc_perm _).mem_iff.mp hp
  have h2 := List.mem_filter.mp hp'
  refine ⟨by simpa using h2.2, ?_⟩
  rcases List.mem_map.mp h2.1 with ⟨c, _, rfl⟩
  rfl

/-- C8 witness: the membership part of the theorem applied at the concrete
text "stigma and anomie and stigma" and the concrete entry ("stigma", 2). -/
theorem C8_conceptRanking_witness :
    0 < (("stigma", 2) : String × Nat).2 ∧
    (("stigma", 2) : String × Nat).2 =
      pyCount (("stigma", 2) : String × Nat).1 "stigma and anomie and stigma" :=
  (C8_conceptRanking "stigma and anomie and stigma").2.2.1 ("stigma", 2) (by decide)

/-- C4 counterexample: the structured result of `analyze` reuses the
top-15 keyword list computed for the narrative report (line 329,
`top_n=15`), so on a document with sixteen distinct eligible words it holds
15 entries, not the claimed top 20. -/
theorem C4_exportKeywordsCounterexample :
    (analyze id id "" "" sixteenKeywordText).keywords = extractKeywords sixteenKeywordText 15 ∧
    (extractKeywords sixteenKeywordText 15).length = 15 ∧
    (extractKeywords sixteenKeywordText 20).length = 16 ∧
    (analyze id id "" "" sixteenKeywordText).keywords ≠ extractKeywords sixteenKeywordText 20 := by
  exact ⟨rfl, by decide, by decide, by decide⟩

/-- C4 (amended): the narrative report lists the top 15 keywords and the
structured export contains that same top-15 list (`analyze` calls
`extract_keywords(text, top_n=15)` once and reuses the result); the
extractor's N is caller-configurable (default 20), and `extract_keywords`
returns at most N entries for any requested N. -/
theorem C4_keywordTopNConfigurable (σt σc : List String → List String)
    (ts fp text : String) (n : Nat) :
    (analyze σt σc ts fp text).keywords = extractKeywords text 15 ∧
    (extractKeywords text n).length ≤ n :=
  ⟨rfl, List.length_take_le n _⟩

/-- C4 witness: the amended theorem applied at a concrete text and N. -/
theorem C4_keywordTopNConfigurable_witness :
    (analyze id id "" "" "alpha").keywords = extractKeywords "alpha" 15 ∧
    (extractKeywords "alpha" 3).length ≤ 3 :=
  C4_keywordTopNConfigurable id id "" "" "alpha" 3

/-- C9 counterexample: on empty input `detect_methodology` does not return
an empty map; it returns the dense three-category map with all counts 0. -/
theorem C9_methodologyMapNotEmpty :
    detectMethodology "" = [("qualitative", 0), ("quantitative", 0), ("mixed_methods", 0)] ∧
    detectMethodology "" ≠ [] := by
  exact ⟨by decide, by decide⟩

/-- C9 (amended): on empty-string input the analysis yields word count 0,
sentence count 0 and average sentence length 0 with no division by zero
(the divisor is `max(sentence_count, 1)`); the methodology map is the dense
all-zero three-category map, while the theories, concepts and components
maps and the keyword list are empty. -/
theorem C9_emptyInputAnalysis :
    (analyze id id "" "" "").summary.word_count = 0 ∧
    (analyze id id "" "" "").summary.sentence_count = 0 ∧
    (analyze id id "" "" "").summary.avg_sentence_length = 0 ∧
    (analyze id id "" "" "").methodology =
      [("qualitative", 0), ("quantitative", 0), ("mixed_methods", 0)] ∧
    (analyze id id "" "" "").theories = [] ∧
    (analyze id id "" "" "").concepts = [] ∧
    (analyze id id "" "" "").components = [] ∧
    (analyze id id "" "" "").keywords = [] := by
  refine ⟨by decide, by decide, ?_, by decide, by decide, by decide, by decide, by decide⟩
  show (wordCount "" : ℚ) / ((max (sentenceCount "") 1 : Nat) : ℚ) = 0
  rw [show wordCount "" = 0 from by decide]
  norm_num

/-- C10: `generate_summary` always reports at least one paragraph, because
`text.split('\n\n')` yields at least one block; in particular the empty
document reports exactly one paragraph. -/
theorem C10_paragraphCountPositive :
    (∀ text : String, 1 ≤ (generateSummary text).paragraph_count) ∧
    (generateSummary "").paragraph_count = 1 := by
  constructor
  · intro text
    show 1 ≤ (splitParas text.toList).length
    simp [splitParas]
  · decide

/-- C10 witness: the theorem's universal part applied at a concrete text. -/
theorem C10_paragraphCountPositive_witness :
    1 ≤ (generateSummary "alpha").paragraph_count :=
  C10_paragraphCountPositive.1 "alpha"

end SPA
